import Mathlib

/-!
Shallow embedding of the Pope agent core (src/pope/PopeAgent.mjs):
agent state, animation handling, backend-state reconciliation, message
routing, the backoff policy and the connection lifecycle, together with
theorems settling the specification claims about them.
-/

/-- One entry of the in-memory chat history (`this.state.chatHistory`). -/
structure ChatEntry where
  sender : String
  text : String
  timestamp : Int
deriving DecidableEq, Repr

/-- The mutable agent state object built in the PopeAgent constructor
(`this.state`).  Positions and rotations are the JS number arrays,
modelled as lists of rationals; `JSON.stringify` comparison of two such
arrays is structural equality, modelled as list equality. -/
structure AgentState where
  isConnected : Bool
  isBackendConnected : Bool
  isMoving : Bool
  currentAnimation : String
  currentPosition : List ℚ
  currentRotation : List ℚ
  activeModel : String
  isSpeaking : Bool
  isThinking : Bool
  browserActive : Bool
  lastInteraction : Int
  chatHistory : List ChatEntry
deriving DecidableEq, Repr

/-- The initial agent state set up in the constructor (with the
`Date.now()` initial interaction timestamp abstracted to 0). -/
def initialAgentState : AgentState :=
  { isConnected := false
    isBackendConnected := false
    isMoving := false
    currentAnimation := "idle"
    currentPosition := [0, 0, 0]
    currentRotation := [0, 0, 0, 1]
    activeModel := "anthropic"
    isSpeaking := false
    isThinking := false
    browserActive := false
    lastInteraction := 0
    chatHistory := [] }

/-- Observable side effects of the handlers: a movement transition, a
rotation, an animation change, a diagnostic log line, or closing the
channel.  The embedded handlers return the list of effects they emit. -/
inductive Effect
  | moveTransition (p : List ℚ)
  | rotationChange (r : List ℚ)
  | animationChange (old next : String)
  | logLine
  | closeChannel
deriving DecidableEq, Repr

/-- `setAnimation(animation)`: a no-op when the requested animation is
already active, otherwise records the new animation and emits one
animation-change effect. -/
def setAnimation (s : AgentState) (a : String) : AgentState × List Effect :=
  if s.currentAnimation = a then (s, [])
  else ({ s with currentAnimation := a }, [Effect.animationChange s.currentAnimation a])

/-- `rotateTo(rotation)`: updates the stored rotation directly. -/
def rotateTo (s : AgentState) (r : List ℚ) : AgentState × List Effect :=
  ({ s with currentRotation := r }, [Effect.rotationChange r])

/-- `moveToPosition(position)`: sets the moving flag, switches the
animation to walking, and updates the stored position.  The deferred
1000ms completion callback is modelled separately as
`moveCompleteTimeout`. -/
def moveToPosition (s : AgentState) (p : List ℚ) : AgentState × List Effect :=
  let s1 := { s with isMoving := true }
  let r2 := setAnimation s1 "walking"
  ({ r2.1 with currentPosition := p }, Effect.moveTransition p :: r2.2)

/-- The body of the `setTimeout` scheduled at the end of
`moveToPosition`: clears the moving flag and reverts to idle only when
no speaking, thinking or browsing concern is active. -/
def moveCompleteTimeout (s : AgentState) : AgentState × List Effect :=
  let s1 := { s with isMoving := false }
  if !s1.isSpeaking && !s1.isThinking && !s1.browserActive then setAnimation s1 "idle"
  else (s1, [])

/-- A partial state snapshot received from the backend
(`message.state` of an inbound STATE_UPDATE). -/
structure BackendState where
  position : Option (List ℚ) := none
  rotation : Option (List ℚ) := none
  speaking : Option Bool := none
  thinking : Option Bool := none
  browser_active : Option Bool := none
  current_model : Option String := none
  animations : Option (List String) := none
deriving DecidableEq, Repr

/-- The position branch of `updateStateFromBackend`: only when the
provided position differs structurally from the current one does it
update the field and trigger a movement transition. -/
def applyPositionStep (p? : Option (List ℚ)) (s : AgentState) : AgentState × List Effect :=
  match p? with
  | some p =>
      if p = s.currentPosition then (s, [])
      else moveToPosition { s with currentPosition := p } p
  | none => (s, [])

/-- The rotation branch of `updateStateFromBackend`. -/
def applyRotationStep (r? : Option (List ℚ)) (s : AgentState) : AgentState × List Effect :=
  match r? with
  | some r =>
      if r = s.currentRotation then (s, [])
      else rotateTo { s with currentRotation := r } r
  | none => (s, [])

/-- The speaking branch: setting speaking switches to talking
unconditionally; clearing it reverts to idle when neither moving nor
thinking (the source does not consult `browserActive` here). -/
def applySpeakingStep (v? : Option Bool) (s : AgentState) : AgentState × List Effect :=
  match v? with
  | some v =>
      let s1 := { s with isSpeaking := v }
      if v then setAnimation s1 "talking"
      else if !s1.isMoving && !s1.isThinking then setAnimation s1 "idle"
      else (s1, [])
  | none => (s, [])

/-- The thinking branch: mirrors the source guard
`!this.state.isMoving && !this.state.isSpeaking`. -/
def applyThinkingStep (v? : Option Bool) (s : AgentState) : AgentState × List Effect :=
  match v? with
  | some v =>
      let s1 := { s with isThinking := v }
      if v then setAnimation s1 "thinking"
      else if !s1.isMoving && !s1.isSpeaking then setAnimation s1 "idle"
      else (s1, [])
  | none => (s, [])

/-- The browser branch: mirrors the source guard
`!isMoving && !isSpeaking && !isThinking`. -/
def applyBrowserStep (v? : Option Bool) (s : AgentState) : AgentState × List Effect :=
  match v? with
  | some v =>
      let s1 := { s with browserActive := v }
      if v then setAnimation s1 "browsing"
      else if !s1.isMoving && !s1.isSpeaking && !s1.isThinking then setAnimation s1 "idle"
      else (s1, [])
  | none => (s, [])

/-- The `current_model` branch. -/
def applyModelStep (m? : Option String) (s : AgentState) : AgentState :=
  match m? with
  | some m => { s with activeModel := m }
  | none => s

/-- The animations branch: applies the head of a non-empty animations
list (`backendState.animations[0]`). -/
def applyAnimationsStep (a? : Option (List String)) (s : AgentState) : AgentState × List Effect :=
  match a? with
  | some (a :: _) => setAnimation s a
  | some [] => (s, [])
  | none => (s, [])

/-- `updateStateFromBackend(backendState)`: the sequential composition
of the seven field branches, in source order. -/
def updateStateFromBackend (s : AgentState) (b : BackendState) : AgentState × List Effect :=
  let r1 := applyPositionStep b.position s
  let r2 := applyRotationStep b.rotation r1.1
  let r3 := applySpeakingStep b.speaking r2.1
  let r4 := applyThinkingStep b.thinking r3.1
  let r5 := applyBrowserStep b.browser_active r4.1
  let s6 := applyModelStep b.current_model r5.1
  let r7 := applyAnimationsStep b.animations s6
  (r7.1, r1.2 ++ r2.2 ++ r3.2 ++ r4.2 ++ r5.2 ++ r7.2)

/-- Number of animation-affecting fields present in a partial backend
update (speaking, thinking, browser_active, or a non-empty animations
list). -/
def animationFieldCount (b : BackendState) : ℕ :=
  (if b.speaking.isSome then 1 else 0) + (if b.thinking.isSome then 1 else 0) +
    (if b.browser_active.isSome then 1 else 0) +
    (match b.animations with | some (_ :: _) => 1 | _ => 0)

/-- WebSocket ready states of the `ws` socket object. -/
inductive ReadyState
  | connecting
  | opened
  | closing
  | closed
deriving DecidableEq, Repr

/-- Outbound JSON messages sent on the socket. -/
inductive OutMessage
  | stateUpdate (position rotation : List ℚ) (animation : String) (interacting : Bool)
  | voiceInput (text : String)
  | actionCommand (action : String)
deriving DecidableEq, Repr

/-- `isInteracting()`: true while less than 60000 ms have elapsed since
the last recorded interaction. -/
def isInteracting (s : AgentState) (now : Int) : Bool :=
  now - s.lastInteraction < 60000

/-- `sendStateToBackend()`: a no-op unless the socket exists and is in
the OPEN state; otherwise sends a STATE_UPDATE carrying position,
rotation, animation and the interacting predicate. -/
def sendStateToBackend (socket : Option ReadyState) (s : AgentState) (now : Int) :
    Option OutMessage :=
  match socket with
  | some ReadyState.opened =>
      some (OutMessage.stateUpdate s.currentPosition s.currentRotation
        s.currentAnimation (isInteracting s now))
  | _ => none

/-- `sendVoiceInput(text)`: returns early (no send, no history entry)
unless the socket exists and is OPEN; otherwise sends a VOICE_INPUT and
appends a user entry to the chat history. -/
def sendVoiceInput (socket : Option ReadyState) (s : AgentState) (text : String) (now : Int) :
    AgentState × Option OutMessage :=
  match socket with
  | some ReadyState.opened =>
      ({ s with chatHistory :=
          s.chatHistory ++ [{ sender := "user", text := text, timestamp := now }] },
       some (OutMessage.voiceInput text))
  | _ => (s, none)

/-- `updateInteraction()`: stamps the interaction time and pushes the
state to the backend (which is itself a no-op while disconnected). -/
def updateInteraction (socket : Option ReadyState) (s : AgentState) (now : Int) :
    AgentState × Option OutMessage :=
  let s1 := { s with lastInteraction := now }
  (s1, sendStateToBackend socket s1 now)

/-- An incoming Hyperfy chat record (`{from, fromId, body}`). -/
structure ChatRecord where
  fromName : String
  fromId : String
  body : String
deriving DecidableEq, Repr

/-- `handleIncomingChat(message)`: ignores self-originated messages,
otherwise forwards the body as voice input and updates the interaction
timestamp. -/
def handleIncomingChat (socket : Option ReadyState) (selfId : String) (s : AgentState)
    (msg : ChatRecord) (now : Int) : AgentState × List OutMessage :=
  if msg.fromId = selfId then (s, [])
  else
    let r1 := sendVoiceInput socket s msg.body now
    let r2 := updateInteraction socket r1.1 now
    (r2.1, r1.2.toList ++ r2.2.toList)

/-- A raw inbound frame: either one whose `JSON.parse` fails, or a
parsed object carrying a `type` string plus the possible payloads. -/
structure ParsedMessage where
  typ : String
  state : BackendState := {}
  data : String := ""
  objects : List String := []
deriving DecidableEq, Repr

/-- Raw inbound data as seen by `handleBackendMessage`. -/
inductive RawInbound
  | malformed
  | parsed (m : ParsedMessage)
deriving DecidableEq, Repr

/-- The closed set of message types the router dispatches on. -/
def knownMessageTypes : List String :=
  ["STATE_UPDATE", "AUDIO", "BROWSER_CONTENT", "PHYSICS_UPDATE"]

/-- `handleBackendMessage(event)`: the whole body sits in a try/catch,
so the function is total — a parse failure is caught and logged, an
unrecognized type only logs, AUDIO / BROWSER_CONTENT / PHYSICS_UPDATE
hand off to collaborators that here only log, and STATE_UPDATE runs the
reconciler.  No branch closes the channel. -/
def handleBackendMessage (s : AgentState) (raw : RawInbound) : AgentState × List Effect :=
  match raw with
  | RawInbound.malformed => (s, [Effect.logLine])
  | RawInbound.parsed m =>
      if m.typ = "STATE_UPDATE" then updateStateFromBackend s m.state
      else if m.typ = "AUDIO" then (s, [Effect.logLine])
      else if m.typ = "BROWSER_CONTENT" then (s, [Effect.logLine])
      else if m.typ = "PHYSICS_UPDATE" then (s, [Effect.logLine])
      else (s, [Effect.logLine])

/-- Hosts a backend URL can name; the liveness probe only runs for the
loopback hosts `localhost` and `127.0.0.1`. -/
inductive Host
  | localhost
  | loopback
  | remote (name : String)
deriving DecidableEq, Repr

/-- Whether the host is one of the two loopback names the source
checks. -/
def isLocalHost : Host → Bool
  | Host.localhost => true
  | Host.loopback => true
  | Host.remote _ => false

/-- Outcome of the HTTP GET /status probe (environment input). -/
inductive ProbeOutcome
  | ok
  | non2xx
  | networkError
  | probeTimeout
deriving DecidableEq, Repr

/-- `checkBackendStatus()`: for loopback hosts, true exactly when the
probe response is ok (a non-2xx response, a fetch error or the 3000 ms
abort all yield false); for remote hosts it returns true without
probing. -/
def checkBackendStatus (h : Host) (p : ProbeOutcome) : Bool :=
  if isLocalHost h then
    match p with
    | ProbeOutcome.ok => true
    | _ => false
  else true

/-- Result of the pre-handshake phase of `connectToBackend`: either an
immediate rejection with no socket and no armed timeout, or a started
handshake guarded by the 30000 ms connection timeout. -/
inductive ConnectOutcome
  | rejectedNoSocket (err : String)
  | handshakeStarted (timeoutMs : ℕ)
deriving DecidableEq, Repr

/-- The pre-handshake phase of `connectToBackend`: if
`checkBackendStatus` reports the backend unavailable the promise is
rejected at once, before any WebSocket is created; otherwise the
socket is created and the 30-second timeout armed. -/
def connectPreflight (h : Host) (p : ProbeOutcome) : ConnectOutcome :=
  if checkBackendStatus h p then ConnectOutcome.handshakeStarted 30000
  else ConnectOutcome.rejectedNoSocket "Backend server unavailable"

/-- The `socket.onopen` handler: clears the timeout, sets
`isBackendConnected`, resets the attempt counter to zero, pushes the
current state (the socket is OPEN, so the push always sends), and
resolves the promise.  Returns (new state, new attempt counter, sent
message, resolved flag). -/
def connectOnOpen (s : AgentState) (attempts : ℕ) (now : Int) :
    AgentState × ℕ × Option OutMessage × Bool :=
  let s1 := { s with isBackendConnected := true }
  (s1, 0, sendStateToBackend (some ReadyState.opened) s1 now, true)

/-- `delayFor`: the backoff delay for a given attempt number and jitter
draw, `min(60000, 5000 * 2^(attempt-1) * jitter)` with the jitter in
the source drawn as `0.9 + Math.random() * 0.2`. -/
def backoffDelay (attempts : ℕ) (jitter : ℚ) : ℚ :=
  min 60000 (5000 * 2 ^ (attempts - 1) * jitter)

/-- The scheduling decision of `scheduleReconnect`: at or beyond 10
attempts it gives up and schedules nothing, otherwise it schedules a
retry after the jittered backoff delay. -/
def scheduleReconnectDelay (attempts : ℕ) (jitter : ℚ) : Option ℚ :=
  if attempts ≥ 10 then none else some (backoffDelay attempts jitter)

/-- Lifecycle phase of the agent: before `start()` is called, while
`start()` is awaiting the first connect, after `start()` returned, and
after `stop()` returned. -/
inductive Phase
  | preStart
  | starting
  | started
  | stopped
deriving DecidableEq, Repr

/-- Connection-lifecycle view of the agent process: the lifecycle
phase, the two connection flags, the attempt counter, whether a socket
object exists and has completed its handshake, the number of reconnect
timers currently scheduled (the source stores no handle for them), a
pending close event for a socket that `stop()` already released, and
whether the idle-behavior intervals and the connection monitor are
active. -/
structure ConnSys where
  phase : Phase
  isConnected : Bool
  isBackendConnected : Bool
  connectionAttempts : ℕ
  socketExists : Bool
  socketOpened : Bool
  pendingReconnects : ℕ
  stopClosePending : Bool
  idleTimersActive : Bool
  monitorActive : Bool
deriving DecidableEq, Repr

/-- The process state right after the constructor runs. -/
def initConn : ConnSys :=
  { phase := Phase.preStart
    isConnected := false
    isBackendConnected := false
    connectionAttempts := 0
    socketExists := false
    socketOpened := false
    pendingReconnects := 0
    stopClosePending := false
    idleTimersActive := false
    monitorActive := false }

/-- `scheduleReconnect()` at the system level: gives up at 10 attempts,
otherwise arms one more reconnect timer (whose handle the source never
stores). -/
def scheduleReconnectSys (s : ConnSys) : ConnSys :=
  if s.connectionAttempts ≥ 10 then s
  else { s with pendingReconnects := s.pendingReconnects + 1 }

/-- The `socket.onclose` handler: clears `isBackendConnected` and calls
`scheduleReconnect`. -/
def oncloseSys (s : ConnSys) : ConnSys :=
  scheduleReconnectSys { s with isBackendConnected := false, socketOpened := false }

/-- `stop()`: stops the idle behaviors, clears the connection monitor,
closes and releases the socket (whose close event is still pending,
since the handlers live on the socket object), and clears
`isConnected`.  Nothing here touches `pendingReconnects` — the source
keeps no handle to a scheduled reconnect timer. -/
def stopAgent (s : ConnSys) : ConnSys :=
  { s with
    idleTimersActive := false
    monitorActive := false
    stopClosePending := s.socketExists
    socketExists := false
    socketOpened := false
    isConnected := false
    phase := Phase.stopped }

/-- One atomic event-loop step of the agent process: each constructor
is one handler of the source running to completion. -/
inductive ConnStep : ConnSys → ConnSys → Prop
  | startBegin (s : ConnSys) (h : s.phase = Phase.preStart) :
      ConnStep s { s with phase := Phase.starting, connectionAttempts := 0 }
  | startConnect (s : ConnSys) (h : s.phase = Phase.starting) (hs : s.socketExists = false) :
      ConnStep s { s with connectionAttempts := s.connectionAttempts + 1,
                          socketExists := true, socketOpened := false }
  | handshakeOpen (s : ConnSys) (h : s.socketExists = true) (h2 : s.socketOpened = false) :
      ConnStep s { s with socketOpened := true, isBackendConnected := true,
                          connectionAttempts := 0 }
  | startFinish (s : ConnSys) (h : s.phase = Phase.starting) :
      ConnStep s { s with phase := Phase.started, isConnected := true,
                          monitorActive := true, idleTimersActive := true }
  | closeDelivered (s : ConnSys) (h : s.socketExists = true) :
      ConnStep s (oncloseSys s)
  | stopCall (s : ConnSys) (h : s.phase = Phase.started) :
      ConnStep s (stopAgent s)
  | stopCloseDelivered (s : ConnSys) (h : s.stopClosePending = true) :
      ConnStep s (scheduleReconnectSys
        { s with stopClosePending := false, isBackendConnected := false })
  | reconnectFire (s : ConnSys) (h : 1 ≤ s.pendingReconnects)
      (hb : s.isBackendConnected = false) :
      ConnStep s { s with pendingReconnects := s.pendingReconnects - 1,
                          connectionAttempts := s.connectionAttempts + 1,
                          socketExists := true, socketOpened := false }
  | reconnectFireIdle (s : ConnSys) (h : 1 ≤ s.pendingReconnects)
      (hb : s.isBackendConnected = true) :
      ConnStep s { s with pendingReconnects := s.pendingReconnects - 1 }
  | monitorFire (s : ConnSys) (h : s.monitorActive = true)
      (hb : s.isBackendConnected = false) (hc : s.isConnected = true) :
      ConnStep s (scheduleReconnectSys s)

/-- Reachability of a process state from the freshly constructed
agent. -/
def ConnReachable (s : ConnSys) : Prop :=
  Relation.ReflTransGen ConnStep initConn s

theorem setAnimation_fst (s : AgentState) (a : String) :
    (setAnimation s a).1 = { s with currentAnimation := a } := by
  unfold setAnimation
  split
  · rename_i h
    cases s
    simp_all
  · rfl

theorem setAnimation_of_eq (s : AgentState) (a : String) (h : s.currentAnimation = a) :
    setAnimation s a = (s, []) := by
  unfold setAnimation
  simp [h]

theorem setAnimation_of_ne (s : AgentState) (a : String) (h : ¬s.currentAnimation = a) :
    setAnimation s a =
      ({ s with currentAnimation := a }, [Effect.animationChange s.currentAnimation a]) := by
  unfold setAnimation
  simp [h]

theorem moveToPosition_fst (s : AgentState) (p : List ℚ) :
    (moveToPosition s p).1 =
      { s with isMoving := true, currentAnimation := "walking", currentPosition := p } := by
  unfold moveToPosition
  simp [setAnimation_fst]

theorem sendVoiceInput_not_open (socket : Option ReadyState) (s : AgentState)
    (text : String) (now : Int)
    (h : ∀ r, socket = some r → r ≠ ReadyState.opened) :
    sendVoiceInput socket s text now = (s, none) := by
  unfold sendVoiceInput
  rcases socket with _ | r
  · rfl
  · cases r
    · rfl
    · exact absurd rfl (h ReadyState.opened rfl)
    · rfl
    · rfl

theorem sendStateToBackend_not_open (socket : Option ReadyState) (s : AgentState) (now : Int)
    (h : ∀ r, socket = some r → r ≠ ReadyState.opened) :
    sendStateToBackend socket s now = none := by
  unfold sendStateToBackend
  rcases socket with _ | r
  · rfl
  · cases r
    · rfl
    · exact absurd rfl (h ReadyState.opened rfl)
    · rfl
    · rfl

theorem backoffDelay_bounds (n : ℕ) (j : ℚ) (hj1 : 9/10 ≤ j) (hj2 : j ≤ 11/10) :
    9/10 * min 60000 (5000 * 2 ^ (n - 1)) ≤ backoffDelay n j ∧
      backoffDelay n j ≤ 11/10 * min 60000 (5000 * 2 ^ (n - 1)) := by
  have hB : (0 : ℚ) < 5000 * 2 ^ (n - 1) := by positivity
  unfold backoffDelay
  constructor
  · rcases le_total (5000 * 2 ^ (n - 1) : ℚ) 60000 with hb | hb
    · rw [min_eq_right hb]
      apply le_min
      · nlinarith
      · nlinarith
    · rw [min_eq_left hb]
      apply le_min
      · nlinarith
      · nlinarith
  · rcases le_total (5000 * 2 ^ (n - 1) : ℚ) 60000 with hb | hb
    · rw [min_eq_right hb]
      exact le_trans (min_le_right _ _) (by nlinarith)
    · rw [min_eq_left hb]
      exact le_trans (min_le_left _ _) (by nlinarith)

/-- C3: for every attempt number 1..10 and every jitter draw in
[0.9, 1.1], the computed retry delay lies within
[0.9, 1.1] * min(60000, 5000 * 2^(n-1)) milliseconds, and a retry is
scheduled exactly when the attempt count is below 10. -/
theorem reconnect_backoff_in_window (n : ℕ) (j : ℚ) (hn1 : 1 ≤ n) (hn2 : n ≤ 10)
    (hj1 : 9/10 ≤ j) (hj2 : j ≤ 11/10) :
    ((scheduleReconnectDelay n j).isSome ↔ n < 10) ∧
      ∀ d, scheduleReconnectDelay n j = some d →
        9/10 * min 60000 (5000 * 2 ^ (n - 1)) ≤ d ∧
          d ≤ 11/10 * min 60000 (5000 * 2 ^ (n - 1)) := by
  constructor
  · unfold scheduleReconnectDelay
    split
    · simpa using by omega
    · simpa using by omega
  · intro d hd
    unfold scheduleReconnectDelay at hd
    split at hd
    · cases hd
    · rw [Option.some_inj] at hd
      rw [← hd]
      exact backoffDelay_bounds n j hj1 hj2

/-- Witness for C3 at attempt 3 with jitter 1. -/
theorem reconnect_backoff_in_window_witness :
    ((scheduleReconnectDelay 3 1).isSome ↔ 3 < 10) ∧
      9/10 * min 60000 (5000 * 2 ^ (3 - 1)) ≤ backoffDelay 3 1 ∧
        backoffDelay 3 1 ≤ 11/10 * min 60000 (5000 * 2 ^ (3 - 1)) := by
  have h := reconnect_backoff_in_window 3 1 (by norm_num) (by norm_num) (by norm_num)
    (by norm_num)
  exact ⟨h.1, h.2 (backoffDelay 3 1) rfl⟩

/-- C4: for a loopback target whose liveness probe reports the backend
unavailable, `connectToBackend` rejects immediately with an error: no
WebSocket is created and the 30-second handshake timeout is never
armed. -/
theorem probe_failure_short_circuits (h : Host) (p : ProbeOutcome)
    (hl : isLocalHost h = true) (hp : p ≠ ProbeOutcome.ok) :
    connectPreflight h p = ConnectOutcome.rejectedNoSocket "Backend server unavailable" := by
  have hstatus : checkBackendStatus h p = false := by
    unfold checkBackendStatus
    rw [if_pos hl]
    cases p
    · exact absurd rfl hp
    · rfl
    · rfl
    · rfl
  unfold connectPreflight
  simp [hstatus]

/-- Witness for C4: localhost with a non-2xx probe response. -/
theorem probe_failure_short_circuits_witness :
    isLocalHost Host.localhost = true ∧
      connectPreflight Host.localhost ProbeOutcome.non2xx =
        ConnectOutcome.rejectedNoSocket "Backend server unavailable" :=
  ⟨rfl, probe_failure_short_circuits Host.localhost ProbeOutcome.non2xx rfl (by decide)⟩

/-- C7: on every successful handshake the `onopen` handler resets the
attempt counter to zero, sets `isBackendConnected`, pushes the current
state outward as a STATE_UPDATE carrying position, rotation, animation
and the interacting predicate, and resolves the open promise. -/
theorem handshake_resets_counter_and_pushes_state (s : AgentState) (attempts : ℕ)
    (now : Int) :
    connectOnOpen s attempts now =
      ({ s with isBackendConnected := true }, 0,
        some (OutMessage.stateUpdate s.currentPosition s.currentRotation
          s.currentAnimation (isInteracting s now)), true) := rfl

/-- C8: the message router never raises: a frame that fails to parse,
or one whose type lies outside the closed set STATE_UPDATE / AUDIO /
BROWSER_CONTENT / PHYSICS_UPDATE, is logged and discarded with the
agent state unchanged and no channel-closing effect. -/
theorem router_discards_malformed_and_unknown (s : AgentState) (raw : RawInbound)
    (h : raw = RawInbound.malformed ∨
      ∃ m, raw = RawInbound.parsed m ∧ m.typ ∉ knownMessageTypes) :
    handleBackendMessage s raw = (s, [Effect.logLine]) := by
  rcases h with rfl | ⟨m, rfl, hm⟩
  · rfl
  · unfold handleBackendMessage
    simp only [knownMessageTypes, List.mem_cons, List.not_mem_nil, or_false] at hm
    push_neg at hm
    obtain ⟨h1, h2, h3, h4⟩ := hm
    simp [h1, h2, h3, h4]

/-- Witness for C8: an unrecognized message type is dropped with only a
log line. -/
theorem router_discards_malformed_and_unknown_witness :
    handleBackendMessage initialAgentState (RawInbound.parsed { typ := "MYSTERY" }) =
      (initialAgentState, [Effect.logLine]) :=
  router_discards_malformed_and_unknown initialAgentState
    (RawInbound.parsed { typ := "MYSTERY" })
    (Or.inr ⟨{ typ := "MYSTERY" }, rfl, by decide⟩)

/-- C10: while the socket is absent or not OPEN, `sendVoiceInput` sends
nothing and leaves the chat history untouched; hence a human chat
message handled while disconnected is never recorded in the history,
though the interaction timestamp is still updated. -/
theorem voice_input_dropped_when_disconnected (socket : Option ReadyState) (selfId : String)
    (s : AgentState) (text : String) (msg : ChatRecord) (now : Int)
    (hsock : ∀ r, socket = some r → r ≠ ReadyState.opened)
    (hself : msg.fromId ≠ selfId) :
    sendVoiceInput socket s text now = (s, none) ∧
      (handleIncomingChat socket selfId s msg now).1.chatHistory = s.chatHistory ∧
      (handleIncomingChat socket selfId s msg now).1.lastInteraction = now ∧
      (handleIncomingChat socket selfId s msg now).2 = [] := by
  refine ⟨sendVoiceInput_not_open socket s text now hsock, ?_, ?_, ?_⟩ <;>
    simp [handleIncomingChat, hself, updateInteraction,
      sendVoiceInput_not_open socket s msg.body now hsock,
      sendStateToBackend_not_open socket _ now hsock]

/-- Witness for C10: a chat message from another user arriving while no
socket exists. -/
theorem voice_input_dropped_when_disconnected_witness :
    sendVoiceInput none initialAgentState "hello" 5 = (initialAgentState, none) ∧
      (handleIncomingChat none "self" initialAgentState
          { fromName := "alice", fromId := "u1", body := "hello" } 5).1.chatHistory =
        initialAgentState.chatHistory ∧
      (handleIncomingChat none "self" initialAgentState
          { fromName := "alice", fromId := "u1", body := "hello" } 5).1.lastInteraction = 5 ∧
      (handleIncomingChat none "self" initialAgentState
          { fromName := "alice", fromId := "u1", body := "hello" } 5).2 = [] :=
  voice_input_dropped_when_disconnected none "self" initialAgentState "hello"
    { fromName := "alice", fromId := "u1", body := "hello" } 5
    (fun r hr => by cases hr) (by decide)

/-- A state in which the agent is mid-movement: the moving flag is set
and the walking animation is active. -/
def movingState : AgentState :=
  { initialAgentState with isMoving := true, currentAnimation := "walking" }

/-- The backend update that only sets the speaking flag. -/
def speakTrueUpdate : BackendState := { speaking := some true }

/-- Counterexample to C2: on a moving agent (walking animation, moving
flag set), a speaking:true update switches the active animation to
talking while the moving flag is still set — the speaking animation
wins over the moving one, refuting the claimed moving-over-speaking
precedence. -/
theorem moving_speaking_shows_talking :
    (updateStateFromBackend movingState speakTrueUpdate).1.isMoving = true ∧
      (updateStateFromBackend movingState speakTrueUpdate).1.isSpeaking = true ∧
      (updateStateFromBackend movingState speakTrueUpdate).1.currentAnimation = "talking" ∧
      "talking" ≠ "walking" :=
  ⟨rfl, rfl, rfl, by decide⟩

/-- C2 amended: animation selection is last-writer-wins, not
precedence-ordered — a speaking:true update always activates talking,
even while the moving flag is set; and when movement completes while
speaking is still true, the movement-completion callback clears the
moving flag without touching the animation (no intermediate idle, but
also no switch to the speaking animation). -/
theorem speaking_update_last_writer (s : AgentState) :
    (updateStateFromBackend s speakTrueUpdate).1.currentAnimation = "talking" ∧
      (s.isSpeaking = true → moveCompleteTimeout s = ({ s with isMoving := false }, [])) := by
  constructor
  · show (applyAnimationsStep none (applyModelStep none
        (applyBrowserStep none (applyThinkingStep none
          (applySpeakingStep (some true) s).1).1).1)).1.currentAnimation = "talking"
    simp only [applyAnimationsStep, applyModelStep, applyBrowserStep, applyThinkingStep,
      applySpeakingStep]
    rw [if_pos trivial, setAnimation_fst]
  · intro hs
    unfold moveCompleteTimeout
    simp [hs]

/-- A state in which the agent is both moving and speaking with the
walking animation active. -/
def movingSpeakingState : AgentState :=
  { initialAgentState with
    isMoving := true
    isSpeaking := true
    currentAnimation := "walking" }

/-- Witness for C2 amended at a moving and speaking agent. -/
theorem speaking_update_last_writer_witness :
    (updateStateFromBackend movingSpeakingState speakTrueUpdate).1.currentAnimation =
        "talking" ∧
      moveCompleteTimeout movingSpeakingState =
        ({ movingSpeakingState with isMoving := false }, []) := by
  have h := speaking_update_last_writer movingSpeakingState
  exact ⟨h.1, h.2 rfl⟩

/-- A state in which the agent is browsing and speaking, with no
movement and no thinking. -/
def browsingSpeakingState : AgentState :=
  { initialAgentState with
    isSpeaking := true
    browserActive := true
    currentAnimation := "browsing" }

/-- The backend update that only clears the speaking flag. -/
def speakFalseUpdate : BackendState := { speaking := some false }

/-- C5: evaluating the reconciler at the failing input — browsing still
active, speaking cleared by the update — shows the animation becoming
idle even though the browsing concern is set: the speaking-clear guard
in the source omits `browserActive` (unlike the browser-clear and
movement-completion guards). -/
theorem speaking_clear_idles_despite_browsing :
    (updateStateFromBackend browsingSpeakingState speakFalseUpdate).1.browserActive = true ∧
      (updateStateFromBackend browsingSpeakingState speakFalseUpdate).1.isSpeaking = false ∧
      (updateStateFromBackend browsingSpeakingState speakFalseUpdate).1.currentAnimation =
        "idle" :=
  ⟨rfl, rfl, rfl⟩

/-- The backend update combining a speaking flag with an explicit
animations list. -/
def speakAndAnimationsUpdate : BackendState :=
  { speaking := some true, animations := some ["prayer"] }

/-- Counterexample to C9: for the update combining speaking:true with
animations ["prayer"], the second application of the very same update
re-fires two animation changes (prayer to talking, then talking back to
prayer), refuting "the second application triggers no animation
change". -/
theorem double_apply_not_effect_free :
    (updateStateFromBackend
        (updateStateFromBackend initialAgentState speakAndAnimationsUpdate).1
        speakAndAnimationsUpdate).2 =
      [Effect.animationChange "prayer" "talking",
        Effect.animationChange "talking" "prayer"] ∧
      [Effect.animationChange "prayer" "talking",
          Effect.animationChange "talking" "prayer"] ≠ ([] : List Effect) :=
  ⟨rfl, by decide⟩

/-- Process state after `start()` was called and reset the attempt
counter. -/
def connS1 : ConnSys := { initConn with phase := Phase.starting }

/-- Process state after `connectToBackend` created the socket. -/
def connS2 : ConnSys :=
  { connS1 with
    connectionAttempts := 1
    socketExists := true }

/-- Process state right after the `onopen` handler ran, while `start()`
has not yet resumed. -/
def connS3 : ConnSys :=
  { connS2 with
    socketOpened := true
    isBackendConnected := true
    connectionAttempts := 0 }

/-- Process state after `start()` finished. -/
def connS4 : ConnSys :=
  { connS3 with
    phase := Phase.started
    isConnected := true
    monitorActive := true
    idleTimersActive := true }

/-- Process state right after `stop()` returned: intervals and monitor
cleared, socket released with its close event still pending. -/
def connS5 : ConnSys :=
  { connS4 with
    idleTimersActive := false
    monitorActive := false
    stopClosePending := true
    socketExists := false
    socketOpened := false
    isConnected := false
    phase := Phase.stopped }

/-- Process state after the close event of the stop-released socket was
delivered: the `onclose` handler ran `scheduleReconnect`, arming a
reconnect timer that `stop()` has no handle to. -/
def connS6 : ConnSys :=
  { connS5 with
    stopClosePending := false
    isBackendConnected := false
    pendingReconnects := 1 }

/-- Process state after that reconnect timer fired: a fresh socket and
connection attempt exist although the agent is stopped. -/
def connS7 : ConnSys :=
  { connS6 with
    pendingReconnects := 0
    connectionAttempts := 1
    socketExists := true }

theorem connStep_init_s1 : ConnStep initConn connS1 := ConnStep.startBegin initConn rfl

theorem connStep_s1_s2 : ConnStep connS1 connS2 := ConnStep.startConnect connS1 rfl rfl

theorem connStep_s2_s3 : ConnStep connS2 connS3 := ConnStep.handshakeOpen connS2 rfl rfl

theorem connStep_s3_s4 : ConnStep connS3 connS4 := ConnStep.startFinish connS3 rfl

theorem connStep_s4_s5 : ConnStep connS4 connS5 := ConnStep.stopCall connS4 rfl

theorem connStep_s5_s6 : ConnStep connS5 connS6 := ConnStep.stopCloseDelivered connS5 rfl

theorem connStep_s6_s7 : ConnStep connS6 connS7 := ConnStep.reconnectFire connS6 (by decide) rfl

theorem connReachable_s3 : ConnReachable connS3 :=
  Relation.ReflTransGen.tail
    (Relation.ReflTransGen.tail
      (Relation.ReflTransGen.tail Relation.ReflTransGen.refl connStep_init_s1)
      connStep_s1_s2)
    connStep_s2_s3

theorem connReachable_s4 : ConnReachable connS4 :=
  Relation.ReflTransGen.tail connReachable_s3 connStep_s3_s4

theorem connReachable_s5 : ConnReachable connS5 :=
  Relation.ReflTransGen.tail connReachable_s4 connStep_s4_s5

/-- C1: evaluating the lifecycle at the failing input — a started,
handshaked agent on which `stop()` completes (state `connS5`) — shows
the claim false: the close event that `stop()` itself triggered runs
`scheduleReconnect`, a reconnect timer gets armed (`connS6`), and when
it fires a fresh connection attempt is executed (`connS7`), all with
the agent stopped.  The source stores no handle for reconnect timers
(nor for the idle-dwell revert timeouts), so `stop()` cannot and does
not cancel them. -/
theorem stop_leaves_reconnect_scheduled :
    ConnReachable connS5 ∧ connS5.phase = Phase.stopped ∧
      connS5.pendingReconnects = 0 ∧
      ConnStep connS5 connS6 ∧ connS6.pendingReconnects = 1 ∧
      ConnStep connS6 connS7 ∧ connS7.socketExists = true ∧
      connS7.connectionAttempts = 1 ∧ connS7.phase = Phase.stopped :=
  ⟨connReachable_s5, rfl, rfl, connStep_s5_s6, rfl, connStep_s6_s7, rfl, rfl, rfl⟩

/-- Counterexample to C6: the state reached during `start()` right
after a successful handshake but before `start()` resumes is reachable
and has `backendConnected = true` while `connected = false`. -/
theorem handshake_window_violates_implication :
    ConnReachable connS3 ∧ connS3.isBackendConnected = true ∧
      connS3.isConnected = false :=
  ⟨connReachable_s3, rfl, rfl⟩

theorem scheduleReconnectSys_phase (s : ConnSys) :
    (scheduleReconnectSys s).phase = s.phase := by
  unfold scheduleReconnectSys
  split <;> rfl

theorem scheduleReconnectSys_isConnected (s : ConnSys) :
    (scheduleReconnectSys s).isConnected = s.isConnected := by
  unfold scheduleReconnectSys
  split <;> rfl

theorem oncloseSys_phase (s : ConnSys) : (oncloseSys s).phase = s.phase := by
  unfold oncloseSys
  rw [scheduleReconnectSys_phase]

theorem oncloseSys_isConnected (s : ConnSys) :
    (oncloseSys s).isConnected = s.isConnected := by
  unfold oncloseSys
  rw [scheduleReconnectSys_isConnected]

theorem connReachable_started_connected (s : ConnSys) (hr : ConnReachable s) :
    s.phase = Phase.started → s.isConnected = true := by
  unfold ConnReachable at hr
  induction hr with
  | refl => intro h; exact absurd h (by decide)
  | tail hab hbc ih =>
      cases hbc with
      | startBegin ht => intro h; exact Phase.noConfusion h
      | startConnect ht hs => intro h; exact ih h
      | handshakeOpen ht h2 => intro h; exact ih h
      | startFinish ht => intro h; rfl
      | closeDelivered ht =>
          intro h
          rw [oncloseSys_phase] at h
          rw [oncloseSys_isConnected]
          exact ih h
      | stopCall ht => intro h; exact Phase.noConfusion h
      | stopCloseDelivered ht =>
          intro h
          rw [scheduleReconnectSys_phase] at h
          rw [scheduleReconnectSys_isConnected]
          exact ih h
      | reconnectFire ht hb => intro h; exact ih h
      | reconnectFireIdle ht hb => intro h; exact ih h
      | monitorFire ht hb hc =>
          intro h
          rw [scheduleReconnectSys_isConnected]
          exact hc

/-- C6 amended: outside the two windows the claim itself names — that
is, in every reachable state whose lifecycle phase is "started"
(`start()` has completed and `stop()` has not been called) —
`backendConnected = true` implies `connected = true`; inside those
windows the implication fails (see the counterexample). -/
theorem backend_connected_implies_connected_when_started (s : ConnSys)
    (hr : ConnReachable s) (hp : s.phase = Phase.started)
    (hb : s.isBackendConnected = true) : s.isConnected = true :=
  connReachable_started_connected s hr hp

/-- Witness for C6 amended at the started, handshaked state. -/
theorem backend_connected_implies_connected_when_started_witness :
    connS4.phase = Phase.started ∧ connS4.isBackendConnected = true ∧
      connS4.isConnected = true :=
  ⟨rfl, rfl,
    backend_connected_implies_connected_when_started connS4 connReachable_s4 rfl rfl⟩

theorem applyPositionStep_fst_eq (p : List ℚ) (s : AgentState) (hp : p = s.currentPosition) :
    (applyPositionStep (some p) s).1 = s := by
  simp [applyPositionStep, hp]

theorem applyPositionStep_fst_ne (p : List ℚ) (s : AgentState) (hp : ¬p = s.currentPosition) :
    (applyPositionStep (some p) s).1 =
      { s with isMoving := true, currentAnimation := "walking", currentPosition := p } := by
  simp [applyPositionStep, hp, moveToPosition, setAnimation_fst]

theorem applySpeakingStep_fst_true (s : AgentState) :
    (applySpeakingStep (some true) s).1 =
      { s with isSpeaking := true, currentAnimation := "talking" } := by
  show (setAnimation { s with isSpeaking := true } "talking").1 = _
  rw [setAnimation_fst]

theorem applySpeakingStep_fst_false (s : AgentState) :
    (applySpeakingStep (some false) s).1 =
      if !s.isMoving && !s.isThinking then
        { s with isSpeaking := false, currentAnimation := "idle" }
      else { s with isSpeaking := false } := by
  show (if !s.isMoving && !s.isThinking then
      setAnimation { s with isSpeaking := false } "idle"
    else ({ s with isSpeaking := false }, [])).1 = _
  split <;> simp [setAnimation_fst]

theorem applyThinkingStep_fst_true (s : AgentState) :
    (applyThinkingStep (some true) s).1 =
      { s with isThinking := true, currentAnimation := "thinking" } := by
  show (setAnimation { s with isThinking := true } "thinking").1 = _
  rw [setAnimation_fst]

theorem applyThinkingStep_fst_false (s : AgentState) :
    (applyThinkingStep (some false) s).1 =
      if !s.isMoving && !s.isSpeaking then
        { s with isThinking := false, currentAnimation := "idle" }
      else { s with isThinking := false } := by
  show (if !s.isMoving && !s.isSpeaking then
      setAnimation { s with isThinking := false } "idle"
    else ({ s with isThinking := false }, [])).1 = _
  split <;> simp [setAnimation_fst]

theorem applyBrowserStep_fst_true (s : AgentState) :
    (applyBrowserStep (some true) s).1 =
      { s with browserActive := true, currentAnimation := "browsing" } := by
  show (setAnimation { s with browserActive := true } "browsing").1 = _
  rw [setAnimation_fst]

theorem applyBrowserStep_fst_false (s : AgentState) :
    (applyBrowserStep (some false) s).1 =
      if !s.isMoving && !s.isSpeaking && !s.isThinking then
        { s with browserActive := false, currentAnimation := "idle" }
      else { s with browserActive := false } := by
  show (if !s.isMoving && !s.isSpeaking && !s.isThinking then
      setAnimation { s with browserActive := false } "idle"
    else ({ s with browserActive := false }, [])).1 = _
  split <;> simp [setAnimation_fst]

theorem applyRotationStep_fst_eq (r : List ℚ) (s : AgentState) (hr : r = s.currentRotation) :
    (applyRotationStep (some r) s).1 = s := by
  simp [applyRotationStep, hr]

theorem applyRotationStep_fst_ne (r : List ℚ) (s : AgentState) (hr : ¬r = s.currentRotation) :
    (applyRotationStep (some r) s).1 = { s with currentRotation := r } := by
  simp [applyRotationStep, hr, rotateTo]

theorem applyAnimationsStep_fst_cons (a : String) (l : List String) (s : AgentState) :
    (applyAnimationsStep (some (a :: l)) s).1 = { s with currentAnimation := a } := by
  show (setAnimation s a).1 = _
  rw [setAnimation_fst]


theorem applyPositionStep_none (s : AgentState) : applyPositionStep none s = (s, []) := rfl

theorem applyRotationStep_none (s : AgentState) : applyRotationStep none s = (s, []) := rfl

theorem applySpeakingStep_none (s : AgentState) : applySpeakingStep none s = (s, []) := rfl

theorem applyThinkingStep_none (s : AgentState) : applyThinkingStep none s = (s, []) := rfl

theorem applyBrowserStep_none (s : AgentState) : applyBrowserStep none s = (s, []) := rfl

theorem applyModelStep_none (s : AgentState) : applyModelStep none s = s := rfl

theorem applyAnimationsStep_none (s : AgentState) : applyAnimationsStep none s = (s, []) := rfl

theorem applyAnimationsStep_nil (s : AgentState) :
    applyAnimationsStep (some []) s = (s, []) := rfl

theorem applyPositionStep_sets (p : List ℚ) (s : AgentState) :
    ((applyPositionStep (some p) s).1).currentPosition = p := by
  by_cases hp : p = s.currentPosition
  · rw [applyPositionStep_fst_eq p s hp]; exact hp.symm
  · rw [applyPositionStep_fst_ne p s hp]

theorem applyRotationStep_sets (r : List ℚ) (s : AgentState) :
    ((applyRotationStep (some r) s).1).currentRotation = r := by
  by_cases hr : r = s.currentRotation
  · rw [applyRotationStep_fst_eq r s hr]; exact hr.symm
  · rw [applyRotationStep_fst_ne r s hr]

theorem applySpeakingStep_sets (v : Bool) (s : AgentState) :
    ((applySpeakingStep (some v) s).1).isSpeaking = v := by
  cases v
  · rw [applySpeakingStep_fst_false]; split <;> rfl
  · rw [applySpeakingStep_fst_true]

theorem applyThinkingStep_sets (v : Bool) (s : AgentState) :
    ((applyThinkingStep (some v) s).1).isThinking = v := by
  cases v
  · rw [applyThinkingStep_fst_false]; split <;> rfl
  · rw [applyThinkingStep_fst_true]

theorem applyBrowserStep_sets (v : Bool) (s : AgentState) :
    ((applyBrowserStep (some v) s).1).browserActive = v := by
  cases v
  · rw [applyBrowserStep_fst_false]; split <;> rfl
  · rw [applyBrowserStep_fst_true]

theorem applyAnimationsStep_sets (a : String) (l : List String) (s : AgentState) :
    ((applyAnimationsStep (some (a :: l)) s).1).currentAnimation = a := by
  rw [applyAnimationsStep_fst_cons]
theorem applyPositionStep_pres_currentRotation (p? : Option (List ℚ)) (s : AgentState) :
    ((applyPositionStep p? s).1).currentRotation = s.currentRotation := by
  rcases p? with _ | p
  · rfl
  · show (if p = s.currentPosition then (s, [])
        else moveToPosition { s with currentPosition := p } p).1.currentRotation = _
    split
    · rfl
    · rw [moveToPosition_fst]

theorem applyPositionStep_pres_isSpeaking (p? : Option (List ℚ)) (s : AgentState) :
    ((applyPositionStep p? s).1).isSpeaking = s.isSpeaking := by
  rcases p? with _ | p
  · rfl
  · show (if p = s.currentPosition then (s, [])
        else moveToPosition { s with currentPosition := p } p).1.isSpeaking = _
    split
    · rfl
    · rw [moveToPosition_fst]

theorem applyPositionStep_pres_isThinking (p? : Option (List ℚ)) (s : AgentState) :
    ((applyPositionStep p? s).1).isThinking = s.isThinking := by
  rcases p? with _ | p
  · rfl
  · show (if p = s.currentPosition then (s, [])
        else moveToPosition { s with currentPosition := p } p).1.isThinking = _
    split
    · rfl
    · rw [moveToPosition_fst]

theorem applyPositionStep_pres_browserActive (p? : Option (List ℚ)) (s : AgentState) :
    ((applyPositionStep p? s).1).browserActive = s.browserActive := by
  rcases p? with _ | p
  · rfl
  · show (if p = s.currentPosition then (s, [])
        else moveToPosition { s with currentPosition := p } p).1.browserActive = _
    split
    · rfl
    · rw [moveToPosition_fst]

theorem applyPositionStep_pres_activeModel (p? : Option (List ℚ)) (s : AgentState) :
    ((applyPositionStep p? s).1).activeModel = s.activeModel := by
  rcases p? with _ | p
  · rfl
  · show (if p = s.currentPosition then (s, [])
        else moveToPosition { s with currentPosition := p } p).1.activeModel = _
    split
    · rfl
    · rw [moveToPosition_fst]

theorem applyRotationStep_pres_currentPosition (r? : Option (List ℚ)) (s : AgentState) :
    ((applyRotationStep r? s).1).currentPosition = s.currentPosition := by
  rcases r? with _ | r
  · rfl
  · show (if r = s.currentRotation then (s, [])
        else rotateTo { s with currentRotation := r } r).1.currentPosition = _
    split
    · rfl
    · rfl

theorem applyRotationStep_pres_isMoving (r? : Option (List ℚ)) (s : AgentState) :
    ((applyRotationStep r? s).1).isMoving = s.isMoving := by
  rcases r? with _ | r
  · rfl
  · show (if r = s.currentRotation then (s, [])
        else rotateTo { s with currentRotation := r } r).1.isMoving = _
    split
    · rfl
    · rfl

theorem applyRotationStep_pres_currentAnimation (r? : Option (List ℚ)) (s : AgentState) :
    ((applyRotationStep r? s).1).currentAnimation = s.currentAnimation := by
  rcases r? with _ | r
  · rfl
  · show (if r = s.currentRotation then (s, [])
        else rotateTo { s with currentRotation := r } r).1.currentAnimation = _
    split
    · rfl
    · rfl

theorem applyRotationStep_pres_isSpeaking (r? : Option (List ℚ)) (s : AgentState) :
    ((applyRotationStep r? s).1).isSpeaking = s.isSpeaking := by
  rcases r? with _ | r
  · rfl
  · show (if r = s.currentRotation then (s, [])
        else rotateTo { s with currentRotation := r } r).1.isSpeaking = _
    split
    · rfl
    · rfl

theorem applyRotationStep_pres_isThinking (r? : Option (List ℚ)) (s : AgentState) :
    ((applyRotationStep r? s).1).isThinking = s.isThinking := by
  rcases r? with _ | r
  · rfl
  · show (if r = s.currentRotation then (s, [])
        else rotateTo { s with currentRotation := r } r).1.isThinking = _
    split
    · rfl
    · rfl

theorem applyRotationStep_pres_browserActive (r? : Option (List ℚ)) (s : AgentState) :
    ((applyRotationStep r? s).1).browserActive = s.browserActive := by
  rcases r? with _ | r
  · rfl
  · show (if r = s.currentRotation then (s, [])
        else rotateTo { s with currentRotation := r } r).1.browserActive = _
    split
    · rfl
    · rfl

theorem applyRotationStep_pres_activeModel (r? : Option (List ℚ)) (s : AgentState) :
    ((applyRotationStep r? s).1).activeModel = s.activeModel := by
  rcases r? with _ | r
  · rfl
  · show (if r = s.currentRotation then (s, [])
        else rotateTo { s with currentRotation := r } r).1.activeModel = _
    split
    · rfl
    · rfl

theorem applySpeakingStep_pres_currentPosition (v? : Option Bool) (s : AgentState) :
    ((applySpeakingStep v? s).1).currentPosition = s.currentPosition := by
  rcases v? with _ | v
  · rfl
  · cases v
    · rw [applySpeakingStep_fst_false]
      split <;> rfl
    · rw [applySpeakingStep_fst_true]

theorem applySpeakingStep_pres_currentRotation (v? : Option Bool) (s : AgentState) :
    ((applySpeakingStep v? s).1).currentRotation = s.currentRotation := by
  rcases v? with _ | v
  · rfl
  · cases v
    · rw [applySpeakingStep_fst_false]
      split <;> rfl
    · rw [applySpeakingStep_fst_true]

theorem applySpeakingStep_pres_isMoving (v? : Option Bool) (s : AgentState) :
    ((applySpeakingStep v? s).1).isMoving = s.isMoving := by
  rcases v? with _ | v
  · rfl
  · cases v
    · rw [applySpeakingStep_fst_false]
      split <;> rfl
    · rw [applySpeakingStep_fst_true]

theorem applySpeakingStep_pres_isThinking (v? : Option Bool) (s : AgentState) :
    ((applySpeakingStep v? s).1).isThinking = s.isThinking := by
  rcases v? with _ | v
  · rfl
  · cases v
    · rw [applySpeakingStep_fst_false]
      split <;> rfl
    · rw [applySpeakingStep_fst_true]

theorem applySpeakingStep_pres_browserActive (v? : Option Bool) (s : AgentState) :
    ((applySpeakingStep v? s).1).browserActive = s.browserActive := by
  rcases v? with _ | v
  · rfl
  · cases v
    · rw [applySpeakingStep_fst_false]
      split <;> rfl
    · rw [applySpeakingStep_fst_true]

theorem applySpeakingStep_pres_activeModel (v? : Option Bool) (s : AgentState) :
    ((applySpeakingStep v? s).1).activeModel = s.activeModel := by
  rcases v? with _ | v
  · rfl
  · cases v
    · rw [applySpeakingStep_fst_false]
      split <;> rfl
    · rw [applySpeakingStep_fst_true]

theorem applyThinkingStep_pres_currentPosition (v? : Option Bool) (s : AgentState) :
    ((applyThinkingStep v? s).1).currentPosition = s.currentPosition := by
  rcases v? with _ | v
  · rfl
  · cases v
    · rw [applyThinkingStep_fst_false]
      split <;> rfl
    · rw [applyThinkingStep_fst_true]

theorem applyThinkingStep_pres_currentRotation (v? : Option Bool) (s : AgentState) :
    ((applyThinkingStep v? s).1).currentRotation = s.currentRotation := by
  rcases v? with _ | v
  · rfl
  · cases v
    · rw [applyThinkingStep_fst_false]
      split <;> rfl
    · rw [applyThinkingStep_fst_true]

theorem applyThinkingStep_pres_isMoving (v? : Option Bool) (s : AgentState) :
    ((applyThinkingStep v? s).1).isMoving = s.isMoving := by
  rcases v? with _ | v
  · rfl
  · cases v
    · rw [applyThinkingStep_fst_false]
      split <;> rfl
    · rw [applyThinkingStep_fst_true]

theorem applyThinkingStep_pres_isSpeaking (v? : Option Bool) (s : AgentState) :
    ((applyThinkingStep v? s).1).isSpeaking = s.isSpeaking := by
  rcases v? with _ | v
  · rfl
  · cases v
    · rw [applyThinkingStep_fst_false]
      split <;> rfl
    · rw [applyThinkingStep_fst_true]

theorem applyThinkingStep_pres_browserActive (v? : Option Bool) (s : AgentState) :
    ((applyThinkingStep v? s).1).browserActive = s.browserActive := by
  rcases v? with _ | v
  · rfl
  · cases v
    · rw [applyThinkingStep_fst_false]
      split <;> rfl
    · rw [applyThinkingStep_fst_true]

theorem applyThinkingStep_pres_activeModel (v? : Option Bool) (s : AgentState) :
    ((applyThinkingStep v? s).1).activeModel = s.activeModel := by
  rcases v? with _ | v
  · rfl
  · cases v
    · rw [applyThinkingStep_fst_false]
      split <;> rfl
    · rw [applyThinkingStep_fst_true]

theorem applyBrowserStep_pres_currentPosition (v? : Option Bool) (s : AgentState) :
    ((applyBrowserStep v? s).1).currentPosition = s.currentPosition := by
  rcases v? with _ | v
  · rfl
  · cases v
    · rw [applyBrowserStep_fst_false]
      split <;> rfl
    · rw [applyBrowserStep_fst_true]

theorem applyBrowserStep_pres_currentRotation (v? : Option Bool) (s : AgentState) :
    ((applyBrowserStep v? s).1).currentRotation = s.currentRotation := by
  rcases v? with _ | v
  · rfl
  · cases v
    · rw [applyBrowserStep_fst_false]
      split <;> rfl
    · rw [applyBrowserStep_fst_true]

theorem applyBrowserStep_pres_isMoving (v? : Option Bool) (s : AgentState) :
    ((applyBrowserStep v? s).1).isMoving = s.isMoving := by
  rcases v? with _ | v
  · rfl
  · cases v
    · rw [applyBrowserStep_fst_false]
      split <;> rfl
    · rw [applyBrowserStep_fst_true]

theorem applyBrowserStep_pres_isSpeaking (v? : Option Bool) (s : AgentState) :
    ((applyBrowserStep v? s).1).isSpeaking = s.isSpeaking := by
  rcases v? with _ | v
  · rfl
  · cases v
    · rw [applyBrowserStep_fst_false]
      split <;> rfl
    · rw [applyBrowserStep_fst_true]

theorem applyBrowserStep_pres_isThinking (v? : Option Bool) (s : AgentState) :
    ((applyBrowserStep v? s).1).isThinking = s.isThinking := by
  rcases v? with _ | v
  · rfl
  · cases v
    · rw [applyBrowserStep_fst_false]
      split <;> rfl
    · rw [applyBrowserStep_fst_true]

theorem applyBrowserStep_pres_activeModel (v? : Option Bool) (s : AgentState) :
    ((applyBrowserStep v? s).1).activeModel = s.activeModel := by
  rcases v? with _ | v
  · rfl
  · cases v
    · rw [applyBrowserStep_fst_false]
      split <;> rfl
    · rw [applyBrowserStep_fst_true]

theorem applyAnimationsStep_pres_currentPosition (a? : Option (List String)) (s : AgentState) :
    ((applyAnimationsStep a? s).1).currentPosition = s.currentPosition := by
  rcases a? with _ | (_ | ⟨a, l⟩)
  · rfl
  · rfl
  · rw [applyAnimationsStep_fst_cons]

theorem applyAnimationsStep_pres_currentRotation (a? : Option (List String)) (s : AgentState) :
    ((applyAnimationsStep a? s).1).currentRotation = s.currentRotation := by
  rcases a? with _ | (_ | ⟨a, l⟩)
  · rfl
  · rfl
  · rw [applyAnimationsStep_fst_cons]

theorem applyAnimationsStep_pres_isMoving (a? : Option (List String)) (s : AgentState) :
    ((applyAnimationsStep a? s).1).isMoving = s.isMoving := by
  rcases a? with _ | (_ | ⟨a, l⟩)
  · rfl
  · rfl
  · rw [applyAnimationsStep_fst_cons]

theorem applyAnimationsStep_pres_isSpeaking (a? : Option (List String)) (s : AgentState) :
    ((applyAnimationsStep a? s).1).isSpeaking = s.isSpeaking := by
  rcases a? with _ | (_ | ⟨a, l⟩)
  · rfl
  · rfl
  · rw [applyAnimationsStep_fst_cons]

theorem applyAnimationsStep_pres_isThinking (a? : Option (List String)) (s : AgentState) :
    ((applyAnimationsStep a? s).1).isThinking = s.isThinking := by
  rcases a? with _ | (_ | ⟨a, l⟩)
  · rfl
  · rfl
  · rw [applyAnimationsStep_fst_cons]

theorem applyAnimationsStep_pres_browserActive (a? : Option (List String)) (s : AgentState) :
    ((applyAnimationsStep a? s).1).browserActive = s.browserActive := by
  rcases a? with _ | (_ | ⟨a, l⟩)
  · rfl
  · rfl
  · rw [applyAnimationsStep_fst_cons]

theorem applyAnimationsStep_pres_activeModel (a? : Option (List String)) (s : AgentState) :
    ((applyAnimationsStep a? s).1).activeModel = s.activeModel := by
  rcases a? with _ | (_ | ⟨a, l⟩)
  · rfl
  · rfl
  · rw [applyAnimationsStep_fst_cons]

theorem applyModelStep_pres_currentPosition (m? : Option String) (s : AgentState) :
    (applyModelStep m? s).currentPosition = s.currentPosition := by
  rcases m? with _ | m
  · rfl
  · rfl

theorem applyModelStep_pres_currentRotation (m? : Option String) (s : AgentState) :
    (applyModelStep m? s).currentRotation = s.currentRotation := by
  rcases m? with _ | m
  · rfl
  · rfl

theorem applyModelStep_pres_isMoving (m? : Option String) (s : AgentState) :
    (applyModelStep m? s).isMoving = s.isMoving := by
  rcases m? with _ | m
  · rfl
  · rfl

theorem applyModelStep_pres_isSpeaking (m? : Option String) (s : AgentState) :
    (applyModelStep m? s).isSpeaking = s.isSpeaking := by
  rcases m? with _ | m
  · rfl
  · rfl

theorem applyModelStep_pres_isThinking (m? : Option String) (s : AgentState) :
    (applyModelStep m? s).isThinking = s.isThinking := by
  rcases m? with _ | m
  · rfl
  · rfl

theorem applyModelStep_pres_browserActive (m? : Option String) (s : AgentState) :
    (applyModelStep m? s).browserActive = s.browserActive := by
  rcases m? with _ | m
  · rfl
  · rfl

theorem applyModelStep_pres_currentAnimation (m? : Option String) (s : AgentState) :
    (applyModelStep m? s).currentAnimation = s.currentAnimation := by
  rcases m? with _ | m
  · rfl
  · rfl

theorem applyPositionStep_stable (p? : Option (List ℚ)) (s : AgentState)
    (h : ∀ p, p? = some p → s.currentPosition = p) :
    applyPositionStep p? s = (s, []) := by
  rcases p? with _ | p
  · rfl
  · show (if p = s.currentPosition then (s, [])
        else moveToPosition { s with currentPosition := p } p) = (s, [])
    rw [if_pos (h p rfl).symm]

theorem applyRotationStep_stable (r? : Option (List ℚ)) (s : AgentState)
    (h : ∀ r, r? = some r → s.currentRotation = r) :
    applyRotationStep r? s = (s, []) := by
  rcases r? with _ | r
  · rfl
  · show (if r = s.currentRotation then (s, [])
        else rotateTo { s with currentRotation := r } r) = (s, [])
    rw [if_pos (h r rfl).symm]

theorem applySpeakingStep_stable (v? : Option Bool) (s : AgentState)
    (hflag : ∀ v, v? = some v → s.isSpeaking = v)
    (htrue : v? = some true → s.currentAnimation = "talking")
    (hfalse : v? = some false → s.isMoving = false → s.isThinking = false →
      s.currentAnimation = "idle") :
    applySpeakingStep v? s = (s, []) := by
  rcases v? with _ | v
  · rfl
  · have hupd : ({ s with isSpeaking := v } : AgentState) = s := by
      rw [← hflag v rfl]
    cases v
    · show (if !s.isMoving && !s.isThinking then
          setAnimation { s with isSpeaking := false } "idle"
        else ({ s with isSpeaking := false }, [])) = (s, [])
      rw [hupd]
      by_cases hg : (!s.isMoving && !s.isThinking) = true
      · rw [if_pos hg]
        simp only [Bool.and_eq_true, Bool.not_eq_true'] at hg
        exact setAnimation_of_eq s "idle" (hfalse rfl hg.1 hg.2)
      · rw [if_neg hg]
    · show setAnimation { s with isSpeaking := true } "talking" = (s, [])
      rw [hupd]
      exact setAnimation_of_eq s "talking" (htrue rfl)

theorem applyThinkingStep_stable (v? : Option Bool) (s : AgentState)
    (hflag : ∀ v, v? = some v → s.isThinking = v)
    (htrue : v? = some true → s.currentAnimation = "thinking")
    (hfalse : v? = some false → s.isMoving = false → s.isSpeaking = false →
      s.currentAnimation = "idle") :
    applyThinkingStep v? s = (s, []) := by
  rcases v? with _ | v
  · rfl
  · have hupd : ({ s with isThinking := v } : AgentState) = s := by
      rw [← hflag v rfl]
    cases v
    · show (if !s.isMoving && !s.isSpeaking then
          setAnimation { s with isThinking := false } "idle"
        else ({ s with isThinking := false }, [])) = (s, [])
      rw [hupd]
      by_cases hg : (!s.isMoving && !s.isSpeaking) = true
      · rw [if_pos hg]
        simp only [Bool.and_eq_true, Bool.not_eq_true'] at hg
        exact setAnimation_of_eq s "idle" (hfalse rfl hg.1 hg.2)
      · rw [if_neg hg]
    · show setAnimation { s with isThinking := true } "thinking" = (s, [])
      rw [hupd]
      exact setAnimation_of_eq s "thinking" (htrue rfl)

theorem applyBrowserStep_stable (v? : Option Bool) (s : AgentState)
    (hflag : ∀ v, v? = some v → s.browserActive = v)
    (htrue : v? = some true → s.currentAnimation = "browsing")
    (hfalse : v? = some false → s.isMoving = false → s.isSpeaking = false →
      s.isThinking = false → s.currentAnimation = "idle") :
    applyBrowserStep v? s = (s, []) := by
  rcases v? with _ | v
  · rfl
  · have hupd : ({ s with browserActive := v } : AgentState) = s := by
      rw [← hflag v rfl]
    cases v
    · show (if !s.isMoving && !s.isSpeaking && !s.isThinking then
          setAnimation { s with browserActive := false } "idle"
        else ({ s with browserActive := false }, [])) = (s, [])
      rw [hupd]
      by_cases hg : (!s.isMoving && !s.isSpeaking && !s.isThinking) = true
      · rw [if_pos hg]
        simp only [Bool.and_eq_true, Bool.not_eq_true'] at hg
        exact setAnimation_of_eq s "idle" (hfalse rfl hg.1.1 hg.1.2 hg.2)
      · rw [if_neg hg]
    · show setAnimation { s with browserActive := true } "browsing" = (s, [])
      rw [hupd]
      exact setAnimation_of_eq s "browsing" (htrue rfl)

theorem applyModelStep_stable (m? : Option String) (s : AgentState)
    (h : ∀ m, m? = some m → s.activeModel = m) :
    applyModelStep m? s = s := by
  rcases m? with _ | m
  · rfl
  · show ({ s with activeModel := m } : AgentState) = s
    rw [← h m rfl]

theorem applyAnimationsStep_stable (a? : Option (List String)) (s : AgentState)
    (h : ∀ a l, a? = some (a :: l) → s.currentAnimation = a) :
    applyAnimationsStep a? s = (s, []) := by
  rcases a? with _ | (_ | ⟨a, l⟩)
  · rfl
  · rfl
  · exact setAnimation_of_eq s a (h a l rfl)

theorem updateStateFromBackend_stable (s : AgentState) (b : BackendState)
    (h1 : ∀ p, b.position = some p → s.currentPosition = p)
    (h2 : ∀ r, b.rotation = some r → s.currentRotation = r)
    (h3 : ∀ v, b.speaking = some v → s.isSpeaking = v)
    (h4 : b.speaking = some true → s.currentAnimation = "talking")
    (h5 : b.speaking = some false → s.isMoving = false → s.isThinking = false →
      s.currentAnimation = "idle")
    (h6 : ∀ v, b.thinking = some v → s.isThinking = v)
    (h7 : b.thinking = some true → s.currentAnimation = "thinking")
    (h8 : b.thinking = some false → s.isMoving = false → s.isSpeaking = false →
      s.currentAnimation = "idle")
    (h9 : ∀ v, b.browser_active = some v → s.browserActive = v)
    (h10 : b.browser_active = some true → s.currentAnimation = "browsing")
    (h11 : b.browser_active = some false → s.isMoving = false → s.isSpeaking = false →
      s.isThinking = false → s.currentAnimation = "idle")
    (h12 : ∀ m, b.current_model = some m → s.activeModel = m)
    (h13 : ∀ a l, b.animations = some (a :: l) → s.currentAnimation = a) :
    updateStateFromBackend s b = (s, []) := by
  simp only [updateStateFromBackend, applyPositionStep_stable b.position s h1,
    applyRotationStep_stable b.rotation s h2, applySpeakingStep_stable b.speaking s h3 h4 h5,
    applyThinkingStep_stable b.thinking s h6 h7 h8,
    applyBrowserStep_stable b.browser_active s h9 h10 h11,
    applyModelStep_stable b.current_model s h12, applyAnimationsStep_stable b.animations s h13,
    List.append_nil, List.nil_append]

theorem applyModelStep_sets (m : String) (s : AgentState) :
    (applyModelStep (some m) s).activeModel = m := rfl

theorem applySpeakingStep_anim_true (s : AgentState) :
    ((applySpeakingStep (some true) s).1).currentAnimation = "talking" := by
  rw [applySpeakingStep_fst_true]

theorem applyThinkingStep_anim_true (s : AgentState) :
    ((applyThinkingStep (some true) s).1).currentAnimation = "thinking" := by
  rw [applyThinkingStep_fst_true]

theorem applyBrowserStep_anim_true (s : AgentState) :
    ((applyBrowserStep (some true) s).1).currentAnimation = "browsing" := by
  rw [applyBrowserStep_fst_true]

theorem applySpeakingStep_anim_false (s : AgentState) (hm : s.isMoving = false)
    (ht : s.isThinking = false) :
    ((applySpeakingStep (some false) s).1).currentAnimation = "idle" := by
  rw [applySpeakingStep_fst_false, if_pos (by simp [hm, ht])]

theorem applyThinkingStep_anim_false (s : AgentState) (hm : s.isMoving = false)
    (hs : s.isSpeaking = false) :
    ((applyThinkingStep (some false) s).1).currentAnimation = "idle" := by
  rw [applyThinkingStep_fst_false, if_pos (by simp [hm, hs])]

theorem applyBrowserStep_anim_false (s : AgentState) (hm : s.isMoving = false)
    (hs : s.isSpeaking = false) (ht : s.isThinking = false) :
    ((applyBrowserStep (some false) s).1).currentAnimation = "idle" := by
  rw [applyBrowserStep_fst_false, if_pos (by simp [hm, hs, ht])]

theorem updateStateFromBackend_fst (s : AgentState) (b : BackendState) :
    (updateStateFromBackend s b).1 =
      (applyAnimationsStep b.animations (applyModelStep b.current_model
        (applyBrowserStep b.browser_active (applyThinkingStep b.thinking
          (applySpeakingStep b.speaking (applyRotationStep b.rotation
            (applyPositionStep b.position s).1).1).1).1).1)).1 := rfl

theorem updateState_sets_position (s : AgentState) (b : BackendState) :
    ∀ p, b.position = some p → ((updateStateFromBackend s b).1).currentPosition = p := by
  intro p hp
  rw [updateStateFromBackend_fst, applyAnimationsStep_pres_currentPosition,
    applyModelStep_pres_currentPosition, applyBrowserStep_pres_currentPosition,
    applyThinkingStep_pres_currentPosition, applySpeakingStep_pres_currentPosition,
    applyRotationStep_pres_currentPosition, hp, applyPositionStep_sets]

theorem updateState_sets_rotation (s : AgentState) (b : BackendState) :
    ∀ r, b.rotation = some r → ((updateStateFromBackend s b).1).currentRotation = r := by
  intro r hr
  rw [updateStateFromBackend_fst, applyAnimationsStep_pres_currentRotation,
    applyModelStep_pres_currentRotation, applyBrowserStep_pres_currentRotation,
    applyThinkingStep_pres_currentRotation, applySpeakingStep_pres_currentRotation,
    hr, applyRotationStep_sets]

theorem updateState_sets_speaking (s : AgentState) (b : BackendState) :
    ∀ v, b.speaking = some v → ((updateStateFromBackend s b).1).isSpeaking = v := by
  intro v hv
  rw [updateStateFromBackend_fst, applyAnimationsStep_pres_isSpeaking,
    applyModelStep_pres_isSpeaking, applyBrowserStep_pres_isSpeaking,
    applyThinkingStep_pres_isSpeaking, hv, applySpeakingStep_sets]

theorem updateState_sets_thinking (s : AgentState) (b : BackendState) :
    ∀ v, b.thinking = some v → ((updateStateFromBackend s b).1).isThinking = v := by
  intro v hv
  rw [updateStateFromBackend_fst, applyAnimationsStep_pres_isThinking,
    applyModelStep_pres_isThinking, applyBrowserStep_pres_isThinking,
    hv, applyThinkingStep_sets]

theorem updateState_sets_browser (s : AgentState) (b : BackendState) :
    ∀ v, b.browser_active = some v → ((updateStateFromBackend s b).1).browserActive = v := by
  intro v hv
  rw [updateStateFromBackend_fst, applyAnimationsStep_pres_browserActive,
    applyModelStep_pres_browserActive, hv, applyBrowserStep_sets]

theorem updateState_sets_model (s : AgentState) (b : BackendState) :
    ∀ m, b.current_model = some m → ((updateStateFromBackend s b).1).activeModel = m := by
  intro m hm
  rw [updateStateFromBackend_fst, applyAnimationsStep_pres_activeModel, hm,
    applyModelStep_sets]

theorem updateState_sets_animations (s : AgentState) (b : BackendState) :
    ∀ a l, b.animations = some (a :: l) →
      ((updateStateFromBackend s b).1).currentAnimation = a := by
  intro a l ha
  rw [updateStateFromBackend_fst, ha, applyAnimationsStep_sets]

theorem count_speaking (b : BackendState) (h : animationFieldCount b ≤ 1)
    (hv : b.speaking.isSome = true) :
    b.thinking = none ∧ b.browser_active = none ∧
      (b.animations = none ∨ b.animations = some ([] : List String)) := by
  unfold animationFieldCount at h
  rcases ht : b.thinking with _ | t <;> rcases hw : b.browser_active with _ | w <;>
    rcases ha : b.animations with _ | (_ | ⟨a, l⟩) <;> rw [ht, hw, ha] at h <;>
    simp [hv] at h <;>
    first
      | exact ⟨rfl, rfl, Or.inl rfl⟩
      | exact ⟨rfl, rfl, Or.inr rfl⟩

theorem count_thinking (b : BackendState) (h : animationFieldCount b ≤ 1)
    (hv : b.thinking.isSome = true) :
    b.speaking = none ∧ b.browser_active = none ∧
      (b.animations = none ∨ b.animations = some ([] : List String)) := by
  unfold animationFieldCount at h
  rcases ht : b.speaking with _ | t <;> rcases hw : b.browser_active with _ | w <;>
    rcases ha : b.animations with _ | (_ | ⟨a, l⟩) <;> rw [ht, hw, ha] at h <;>
    simp [hv] at h <;>
    first
      | exact ⟨rfl, rfl, Or.inl rfl⟩
      | exact ⟨rfl, rfl, Or.inr rfl⟩

theorem count_browser (b : BackendState) (h : animationFieldCount b ≤ 1)
    (hv : b.browser_active.isSome = true) :
    b.speaking = none ∧ b.thinking = none ∧
      (b.animations = none ∨ b.animations = some ([] : List String)) := by
  unfold animationFieldCount at h
  rcases ht : b.speaking with _ | t <;> rcases hw : b.thinking with _ | w <;>
    rcases ha : b.animations with _ | (_ | ⟨a, l⟩) <;> rw [ht, hw, ha] at h <;>
    simp [hv] at h <;>
    first
      | exact ⟨rfl, rfl, Or.inl rfl⟩
      | exact ⟨rfl, rfl, Or.inr rfl⟩

theorem updateState_anim_speak_true (s : AgentState) (b : BackendState)
    (h : animationFieldCount b ≤ 1) (hv : b.speaking = some true) :
    ((updateStateFromBackend s b).1).currentAnimation = "talking" := by
  obtain ⟨ht, hw, ha⟩ := count_speaking b h (by rw [hv]; rfl)
  rw [updateStateFromBackend_fst, ht, hw, hv]
  rcases ha with ha | ha <;> rw [ha] <;>
    simp only [applyAnimationsStep_none, applyAnimationsStep_nil, applyThinkingStep_none,
      applyBrowserStep_none] <;>
    rw [applyModelStep_pres_currentAnimation, applySpeakingStep_anim_true]

theorem updateState_anim_speak_false (s : AgentState) (b : BackendState)
    (h : animationFieldCount b ≤ 1) (hv : b.speaking = some false) :
    ((updateStateFromBackend s b).1).isMoving = false →
      ((updateStateFromBackend s b).1).isThinking = false →
      ((updateStateFromBackend s b).1).currentAnimation = "idle" := by
  obtain ⟨ht, hw, ha⟩ := count_speaking b h (by rw [hv]; rfl)
  intro hm hth
  rw [updateStateFromBackend_fst, ht, hw, hv] at hm hth ⊢
  rcases ha with ha | ha <;> rw [ha] at hm hth ⊢ <;>
    simp only [applyAnimationsStep_none, applyAnimationsStep_nil, applyThinkingStep_none,
      applyBrowserStep_none] at hm hth ⊢ <;>
    rw [applyModelStep_pres_isMoving, applySpeakingStep_pres_isMoving] at hm <;>
    rw [applyModelStep_pres_isThinking, applySpeakingStep_pres_isThinking] at hth <;>
    rw [applyModelStep_pres_currentAnimation] <;>
    exact applySpeakingStep_anim_false _ hm hth

theorem updateState_anim_think_true (s : AgentState) (b : BackendState)
    (h : animationFieldCount b ≤ 1) (hv : b.thinking = some true) :
    ((updateStateFromBackend s b).1).currentAnimation = "thinking" := by
  obtain ⟨hs, hw, ha⟩ := count_thinking b h (by rw [hv]; rfl)
  rw [updateStateFromBackend_fst, hs, hw, hv]
  rcases ha with ha | ha <;> rw [ha] <;>
    simp only [applyAnimationsStep_none, applyAnimationsStep_nil, applySpeakingStep_none,
      applyBrowserStep_none] <;>
    rw [applyModelStep_pres_currentAnimation, applyThinkingStep_anim_true]

theorem updateState_anim_think_false (s : AgentState) (b : BackendState)
    (h : animationFieldCount b ≤ 1) (hv : b.thinking = some false) :
    ((updateStateFromBackend s b).1).isMoving = false →
      ((updateStateFromBackend s b).1).isSpeaking = false →
      ((updateStateFromBackend s b).1).currentAnimation = "idle" := by
  obtain ⟨hs, hw, ha⟩ := count_thinking b h (by rw [hv]; rfl)
  intro hm hsp
  rw [updateStateFromBackend_fst, hs, hw, hv] at hm hsp ⊢
  rcases ha with ha | ha <;> rw [ha] at hm hsp ⊢ <;>
    simp only [applyAnimationsStep_none, applyAnimationsStep_nil, applySpeakingStep_none,
      applyBrowserStep_none] at hm hsp ⊢ <;>
    rw [applyModelStep_pres_isMoving, applyThinkingStep_pres_isMoving] at hm <;>
    rw [applyModelStep_pres_isSpeaking, applyThinkingStep_pres_isSpeaking] at hsp <;>
    rw [applyModelStep_pres_currentAnimation] <;>
    exact applyThinkingStep_anim_false _ hm hsp

theorem updateState_anim_browse_true (s : AgentState) (b : BackendState)
    (h : animationFieldCount b ≤ 1) (hv : b.browser_active = some true) :
    ((updateStateFromBackend s b).1).currentAnimation = "browsing" := by
  obtain ⟨hs, ht, ha⟩ := count_browser b h (by rw [hv]; rfl)
  rw [updateStateFromBackend_fst, hs, ht, hv]
  rcases ha with ha | ha <;> rw [ha] <;>
    simp only [applyAnimationsStep_none, applyAnimationsStep_nil, applySpeakingStep_none,
      applyThinkingStep_none] <;>
    rw [applyModelStep_pres_currentAnimation, applyBrowserStep_anim_true]

theorem updateState_anim_browse_false (s : AgentState) (b : BackendState)
    (h : animationFieldCount b ≤ 1) (hv : b.browser_active = some false) :
    ((updateStateFromBackend s b).1).isMoving = false →
      ((updateStateFromBackend s b).1).isSpeaking = false →
      ((updateStateFromBackend s b).1).isThinking = false →
      ((updateStateFromBackend s b).1).currentAnimation = "idle" := by
  obtain ⟨hs, ht, ha⟩ := count_browser b h (by rw [hv]; rfl)
  intro hm hsp hth
  rw [updateStateFromBackend_fst, hs, ht, hv] at hm hsp hth ⊢
  rcases ha with ha | ha <;> rw [ha] at hm hsp hth ⊢ <;>
    simp only [applyAnimationsStep_none, applyAnimationsStep_nil, applySpeakingStep_none,
      applyThinkingStep_none] at hm hsp hth ⊢ <;>
    rw [applyModelStep_pres_isMoving, applyBrowserStep_pres_isMoving] at hm <;>
    rw [applyModelStep_pres_isSpeaking, applyBrowserStep_pres_isSpeaking] at hsp <;>
    rw [applyModelStep_pres_isThinking, applyBrowserStep_pres_isThinking] at hth <;>
    rw [applyModelStep_pres_currentAnimation] <;>
    exact applyBrowserStep_anim_false _ hm hsp hth

/-- C9 amended: for backend updates carrying at most one
animation-affecting field (speaking, thinking, browser_active, or a
non-empty animations list), reapplying the identical update is fully
idempotent: the second application changes no state field and emits no
effect at all — no movement transition, no rotation, no animation
change.  Updates combining two such fields can re-fire animation
changes on each application (see the counterexample). -/
theorem update_reapply_single_field_idempotent (s : AgentState) (b : BackendState)
    (h : animationFieldCount b ≤ 1) :
    updateStateFromBackend (updateStateFromBackend s b).1 b =
      ((updateStateFromBackend s b).1, []) := by
  apply updateStateFromBackend_stable
  · exact updateState_sets_position s b
  · exact updateState_sets_rotation s b
  · exact updateState_sets_speaking s b
  · exact fun hv => updateState_anim_speak_true s b h hv
  · exact fun hv => updateState_anim_speak_false s b h hv
  · exact updateState_sets_thinking s b
  · exact fun hv => updateState_anim_think_true s b h hv
  · exact fun hv => updateState_anim_think_false s b h hv
  · exact updateState_sets_browser s b
  · exact fun hv => updateState_anim_browse_true s b h hv
  · exact fun hv => updateState_anim_browse_false s b h hv
  · exact updateState_sets_model s b
  · exact updateState_sets_animations s b


/-- Witness for C9 amended: a position-plus-speaking update applied
twice to the initial state. -/
theorem update_reapply_single_field_idempotent_witness :
    animationFieldCount { position := some [1, 2, 3], speaking := some true } ≤ 1 ∧
      updateStateFromBackend
          (updateStateFromBackend initialAgentState
            { position := some [1, 2, 3], speaking := some true }).1
          { position := some [1, 2, 3], speaking := some true } =
        ((updateStateFromBackend initialAgentState
            { position := some [1, 2, 3], speaking := some true }).1, []) :=
  ⟨by decide, update_reapply_single_field_idempotent initialAgentState
    { position := some [1, 2, 3], speaking := some true } (by decide)⟩
